import Mathlib

/-!
Verification of the connection-classification and bot-verification gateway
of the PeteZahGames server (src/server.js, src/server/api/signup.js,
src/ipv6-rotator.js), as a shallow embedding in Lean 4.

Strings from JavaScript are modelled as Lean `String`; header maps as
association lists from (lower-case) header names to values; a header that
is absent is `Option.none`, mirroring JavaScript `undefined`.  Machine
time (`Date.now()`) is an explicit `Int` parameter.  The single-use token
registry (`usedTokens`, a module-level `Map` whose entries are deleted by
a timer 900000 ms after insertion) is modelled as an association list of
(fingerprint, insertion time) pairs together with the activity predicate
`regActive`: an entry is live at time `now` exactly while its deletion
timer has not yet fired.
-/

set_option maxRecDepth 40000

namespace PZG

/-! ## Generic JavaScript string operations -/

/-- Model of `p.isPrefixOf`-style matching used for JavaScript
`String.prototype.startsWith`: the first list is the pattern, the second
the scanned text. -/
def listIsPre : List Char → List Char → Bool
  | [], _ => true
  | _ :: _, [] => false
  | a :: as, b :: bs => a == b && listIsPre as bs

/-- JavaScript `s.startsWith(p)`. -/
def strStartsWith (s p : String) : Bool :=
  listIsPre p.data s.data

/-- Scan helper for substring search: does `sub` occur in the text? -/
def hasSubAux (sub : List Char) : List Char → Bool
  | [] => listIsPre sub []
  | c :: rest => listIsPre sub (c :: rest) || hasSubAux sub rest

/-- JavaScript `s.includes(sub)` (case-sensitive substring test). -/
def strIncludes (s sub : String) : Bool :=
  hasSubAux sub.data s.data

/-- ASCII lower-casing of a string, modelling both
`String.prototype.toLowerCase` and the case folding performed by a
case-insensitive regular expression over the ASCII range. -/
def lowerStr (s : String) : String :=
  ⟨s.data.map Char.toLower⟩

/-- JavaScript strict equality `a === b` where either side may be
`undefined` (`none`): `undefined === undefined` is `true`, a string never
equals `undefined`, and two strings compare by value. -/
def jsStrEq : Option String → Option String → Bool
  | none, none => true
  | some a, some b => a == b
  | _, _ => false

/-- Split a character list at every occurrence of the separator, keeping
empty pieces, exactly as JavaScript `s.split(sep)` does for a
single-character separator (`"".split(sep)` gives `[""]`). -/
def splitChar (sep : Char) : List Char → List (List Char)
  | [] => [[]]
  | c :: rest =>
    if c = sep then [] :: splitChar sep rest
    else
      match splitChar sep rest with
      | [] => [[c]]
      | g :: gs => (c :: g) :: gs

/-- The whitespace characters removed by JavaScript
`String.prototype.trim` (restricted to the ASCII range). -/
def jsWs (c : Char) : Bool :=
  c = ' ' || c = '\t' || c = '\n' || c = '\r' || c = Char.ofNat 11 || c = Char.ofNat 12

/-- JavaScript `s.trim()` on a character list. -/
def jsTrim (l : List Char) : List Char :=
  ((l.dropWhile jsWs).reverse.dropWhile jsWs).reverse

/-! ## Request and environment model -/

/-- One inbound HTTP or upgrade request: method, target path, and the
header map as Node.js presents it (names lower-cased, absent ↦ `none`). -/
structure Req where
  method : String
  url : String
  headers : List (String × String)
deriving DecidableEq

/-- `req.headers[name]`: first binding in the header list, `none` when
the header is absent (Node.js joins duplicates before this point). -/
def reqHeader (req : Req) (name : String) : Option String :=
  (req.headers.find? (fun p => p.fst == name)).map (fun p => p.snd)

/-- Environment configuration consumed by the gateway: the value of
`process.env.BOT_TOKEN` (`none` when the variable is unset). -/
structure Env where
  botToken : Option String
deriving DecidableEq

/-! ## parseCookies and isVerified (src/server.js lines 337-354) -/

/-- One step of the `reduce` in `parseCookies`: trim the item, split on
`=`, keep the first piece as the name and the second as the value
(`undefined`, i.e. `none`, when there is no `=`). -/
def parseCookieItem (item : List Char) : String × Option String :=
  let ps := splitChar '=' (jsTrim item)
  (⟨ps.headD []⟩, if ps.length ≤ 1 then none else some ⟨ps.getD 1 []⟩)

/-- `parseCookies(header)` from src/server.js line 337: an empty or
missing header yields the empty object; otherwise split on `;` and
accumulate name/value pairs. -/
def parseCookies (hdr : Option String) : List (String × Option String) :=
  match hdr with
  | none => []
  | some h => if h = "" then [] else (splitChar ';' h.data).map parseCookieItem

/-- Reading property `name` of the object built by the `reduce`: later
assignments overwrite earlier ones, so the last binding wins.  The outer
`Option` is `none` when the property was never assigned. -/
def cookieProp : List (String × Option String) → String → Option (Option String)
  | [], _ => none
  | (k, v) :: rest, name =>
    match cookieProp rest name with
    | some r => some r
    | none => if k == name then some v else none

/-- `cookies.verified === 'ok'` for a raw cookie header. -/
def cookieSentinel (hdr : Option String) : Bool :=
  match cookieProp (parseCookies hdr) "verified" with
  | some (some v) => v == "ok"
  | _ => false

/-- `isVerified(req)` from src/server.js line 346: the `verified=ok`
cookie, or the `x-bot-token` header strictly equal to
`process.env.BOT_TOKEN`. -/
def isVerified (env : Env) (req : Req) : Bool :=
  let cookies := parseCookies (reqHeader req "cookie")
  (match cookieProp cookies "verified" with
   | some (some v) => v == "ok"
   | _ => false) || jsStrEq (reqHeader req "x-bot-token") env.botToken

/-- `isBrowser(req)` from src/server.js line 351: the case-insensitive
regular expression `Mozilla|Chrome|Safari|Firefox|Edge` tested against
the User-Agent header (empty string when the header is absent). -/
def isBrowser (req : Req) : Bool :=
  let ua := lowerStr ((reqHeader req "user-agent").getD "")
  strIncludes ua "mozilla" || strIncludes ua "chrome" || strIncludes ua "safari" ||
    strIncludes ua "firefox" || strIncludes ua "edge"

/-- `req.headers.accept?.includes('text/html')` coerced to boolean (the
optional chain makes a missing Accept header behave as `false`). -/
def acceptsHtml (req : Req) : Bool :=
  match reqHeader req "accept" with
  | none => false
  | some a => strIncludes a "text/html"

/-! ## HTTP verification handler (src/server.js lines 356-380) -/

/-- An HTTP response written directly on the raw response object. -/
structure HttpResponse where
  status : Nat
  contentType : String
  setCookie : Option String
  body : String
deriving DecidableEq

/-- Outcome of `handleHttpVerification`: either call `next()` (forward)
or write a response and stop. -/
inductive HttpVerifResult where
  | next : HttpVerifResult
  | respond : HttpResponse → HttpVerifResult
deriving DecidableEq

/-- The 403 response written for a non-browser client. -/
def forbiddenResponse : HttpResponse :=
  { status := 403, contentType := "text/plain", setCookie := none, body := "Forbidden" }

/-- The Set-Cookie header of the challenge response. -/
def challengeSetCookie : String :=
  "verified=ok; Max-Age=86400; Path=/; HttpOnly; SameSite=Lax"

/-- The challenge page body literal from src/server.js lines 368-379. -/
def challengeBody : String :=
  "\n    <!DOCTYPE html>\n    <html>\n      <body>\n        <script>\n          document.cookie = \"verified=ok; Max-Age=86400; SameSite=Lax\";\n          setTimeout(() => window.location.replace(window.location.pathname), 100);\n        </script>\n        <noscript>Enable JavaScript to continue.</noscript>\n      </body>\n    </html>\n  "

/-- The challenge response (status 200, text/html, Set-Cookie). -/
def challengeResponse : HttpResponse :=
  { status := 200, contentType := "text/html", setCookie := some challengeSetCookie,
    body := challengeBody }

/-- `handleHttpVerification` from src/server.js line 356, as a decision:
requests that do not accept HTML pass through; verified browsers pass
through; remaining non-browsers get a 403; remaining browsers get the
challenge page. -/
def handleHttpVerification (env : Env) (req : Req) : HttpVerifResult :=
  if !acceptsHtml req then .next
  else if isVerified env req && isBrowser req then .next
  else if !isBrowser req then .respond forbiddenResponse
  else .respond challengeResponse

/-! ## Upgrade verification handler (src/server.js lines 382-394) -/

/-- `handleUpgradeVerification` from src/server.js line 382 as a boolean:
`true` means `next()` is invoked, `false` means the socket is destroyed.
WISP paths short-circuit; otherwise a verified browser proceeds. -/
def upgradeVerifProceed (env : Env) (req : Req) : Bool :=
  strStartsWith req.url "/wisp/" || (isVerified env req && isBrowser req)

/-! ## Random address allocator (src/server.js lines 64-67) -/

/-- Hexadecimal digit character, as produced by `Number.prototype.toString(16)`
(lower case). -/
def hexDigitChar (n : Nat) : Char :=
  if n < 10 then Char.ofNat (48 + n) else Char.ofNat (87 + n)

/-- Fuel-driven digit accumulation for `n.toString(16)`: emits the hex
digits of `n` most significant first, stopping at zero. -/
def natToHexGo : Nat → Nat → List Char
  | 0, _ => []
  | _ + 1, 0 => []
  | fuel + 1, n => natToHexGo fuel (n / 16) ++ [hexDigitChar (n % 16)]

/-- Digit list of `n.toString(16)` (lower-case hex, `"0"` for zero). -/
def natToHexAux (n : Nat) : List Char :=
  if n = 0 then ['0'] else natToHexGo n n

/-- `s.padStart(4, '0')` at the character-list level. -/
def padStart4 (l : List Char) : List Char :=
  List.replicate (4 - l.length) '0' ++ l

/-- `getRandomIPv6` from src/server.js line 64, as a function of the
random draw `i = Math.floor(Math.random() * 5000) + 1` (so `i` ranges
over 1..5000): the fixed block followed by the draw in 4 padded hex
digits and the `::1` suffix. -/
def getRandomIPv6 (i : Nat) : String :=
  ⟨"2607:5300:205:200:".data ++ padStart4 (natToHexAux i) ++ "::1".data⟩

/-! ## IPv6Rotator (src/ipv6-rotator.js) -/

/-- `IPv6Rotator.isReserved` with the constructor's `reservedRanges`
`[{start: 0x1, end: 0xc4}]` (the roblox-1..roblox-196 interface
addresses). -/
def isReservedSeg (seg : Nat) : Bool :=
  1 ≤ seg && seg ≤ 0xc4

/-- Numeric value of a digit run (most significant first) in the given
base, as accumulated by JavaScript `parseInt`. -/
def digitsVal (base : Nat) (l : List Char) : Nat :=
  l.foldl (fun acc c =>
    acc * base +
      (if c.toNat ≥ 97 then c.toNat - 87
       else if c.toNat ≥ 65 then c.toNat - 55
       else c.toNat - 48)) 0

def hexVal (l : List Char) : Nat :=
  digitsVal 16 l

/-- First 16-bit segment of a 16-hex-character draw:
`parseInt(randomHex.substr(0, 4), 16)`. -/
def rotFirstSeg (hex : String) : Nat :=
  hexVal (hex.data.take 4)

/-- Split a hex draw into the four 4-character groups of the loop
`for (let i = 0; i < randomHex.length; i += 4)`. -/
def groupsOf4 : List Char → List (List Char)
  | a :: b :: c :: d :: rest => [a, b, c, d] :: groupsOf4 rest
  | _ => []

/-- Interleave `:` between groups (`parts.join(':')`). -/
def joinColon : List (List Char) → List Char
  | [] => []
  | [g] => g
  | g :: gs => g ++ ':' :: joinColon gs

/-- The address formatted by `IPv6Rotator.generateRandomIP` for an
accepted draw: `prefix::p1:p2:p3:p4`. -/
def rotFormat (hex : String) : String :=
  ⟨"2607:5300:205:200".data ++ "::".data ++ joinColon (groupsOf4 hex.data)⟩

/-- One iteration of the rotator's do/while loop: a draw whose first
segment is reserved is retried (modelled as `none`); otherwise the
formatted address is produced. -/
def rotatorStep (hex : String) : Option String :=
  if isReservedSeg (rotFirstSeg hex) then none else some (rotFormat hex)

/-! ## Bot-token validation (src/server/api/signup.js lines 19-60) -/

/-- Index of a character in the base64 alphabet, `none` for characters
outside it (Node's decoder skips those). -/
def b64Index (c : Char) : Option Nat :=
  if 'A' ≤ c ∧ c ≤ 'Z' then some (c.toNat - 65)
  else if 'a' ≤ c ∧ c ≤ 'z' then some (c.toNat - 97 + 26)
  else if '0' ≤ c ∧ c ≤ '9' then some (c.toNat - 48 + 52)
  else if c = '+' then some 62
  else if c = '/' then some 63
  else none

/-- Byte groups of the base64 decoding: four 6-bit values give three
bytes; a trailing pair gives one byte and a trailing triple two bytes, as
in Node's lenient `Buffer.from(s, 'base64')`. -/
def b64Bytes : List Nat → List Nat
  | a :: b :: c :: d :: rest =>
    (a * 4 + b / 16) :: ((b % 16) * 16 + c / 4) :: ((c % 4) * 64 + d) :: b64Bytes rest
  | [a, b] => [a * 4 + b / 16]
  | [a, b, c] => [a * 4 + b / 16, (b % 16) * 16 + c / 4]
  | _ => []

/-- Modelled from the spec: Node's `Buffer.from(token, 'base64')`
followed by `.toString('utf-8')` — an external library routine, not code
of this repository.  Characters outside the base64 alphabet are ignored,
`=` terminates the input, and the resulting bytes are read back as
characters (exact for the ASCII payloads the token scheme produces; a
non-ASCII byte is mapped to its code point rather than running the
multi-byte UTF-8 state machine). -/
def b64decode (s : String) : String :=
  ⟨(b64Bytes ((s.data.takeWhile (fun c => c ≠ '=')).filterMap b64Index)).map
    (fun b => Char.ofNat b)⟩

/-- JavaScript `parseInt(s)` (radix unspecified): skip leading
whitespace, read an optional sign, switch to hexadecimal after a `0x` or
`0X` marker, then take the longest digit run; `none` models `NaN`. -/
def jsParseInt (s : String) : Option Int :=
  let l := s.data.dropWhile jsWs
  let sg : Int := if l.headD ' ' = '-' then -1 else 1
  let l := if l.headD ' ' = '-' ∨ l.headD ' ' = '+' then l.tail else l
  let hex : Bool :=
    match l with
    | '0' :: x :: _ => x == 'x' || x == 'X'
    | _ => false
  let l := if hex then l.tail.tail else l
  let isDig : Char → Bool :=
    if hex then (fun c => c.isDigit || ('a' ≤ c && c ≤ 'f') || ('A' ≤ c && c ≤ 'F'))
    else (fun c => c.isDigit)
  let ds := l.takeWhile isDig
  if ds.isEmpty then none
  else some (sg * Int.ofNat (digitsVal (if hex then 16 else 10) ds))

/-- Modelled from the spec: the token's fingerprint,
`createHash('sha256').update(token).digest('hex')` — an external crypto
library routine, not code of this repository.  Only equality of
fingerprints matters to the registry, so the hash is modelled as an
injective encoding (the token itself); this is exact on every run with
no SHA-256 collision. -/
def tokenFingerprint (t : String) : String := t

/-- The single-use registry `usedTokens`: (fingerprint, insertion time)
pairs.  An entry is live at `now` while its 900000 ms deletion timer has
not fired. -/
def regActive (reg : List (String × Int)) (now : Int) (h : String) : Bool :=
  reg.any (fun e => e.fst == h && decide (now < e.snd + 900000))

/-- The registry-free phase of `validateBotToken` (src/server/api/signup.js
lines 20-47): the falsy/type guard, base64 decoding into
`timestamp:random`, the shape checks and the freshness window, in source
order; `false` models every early `return false` before the registry is
consulted. -/
def tokenChecksOut (now : Int) (t : String) : Bool :=
  if t = "" then false
  else if (splitChar ':' (b64decode t).data).length ≠ 2 then false
  else
    match jsParseInt ⟨(splitChar ':' (b64decode t).data).headD []⟩ with
    | none => false
    | some ts =>
      if (splitChar ':' (b64decode t).data).getD 1 [] = [] then false
      else if now - ts < 2000 then false
      else if now - ts > 300000 then false
      else true

/-- `validateBotToken(token)` from src/server/api/signup.js line 19, in
state-passing form over the registry and the current time: after the
registry-free checks, a fingerprint already live in `usedTokens` is
rejected, and otherwise the fingerprint is inserted and the token
accepted.  The returned pair is (accepted, registry after the call). -/
def validateBotToken (now : Int) (token : Option String) (reg : List (String × Int)) :
    Bool × List (String × Int) :=
  match token with
  | none => (false, reg)
  | some t =>
    if tokenChecksOut now t then
      if regActive reg now (tokenFingerprint t) then (false, reg)
      else (true, (tokenFingerprint t, now) :: reg)
    else (false, reg)

/-- Acceptance predicate written from the specification's wording: the
token base64-decodes to exactly two colon-separated parts, the first
parses as a number, the second is non-empty, the age lies between the
minimum delay (2000 ms) and the maximum age (300000 ms) inclusive, and
the fingerprint is not live in the single-use registry. -/
def tokenAcceptSpecB (now : Int) (token : Option String) (reg : List (String × Int)) : Bool :=
  match token with
  | none => false
  | some t =>
    (!(t == "") && (splitChar ':' (b64decode t).data).length == 2 &&
      (match jsParseInt ⟨(splitChar ':' (b64decode t).data).headD []⟩ with
       | none => false
       | some ts =>
         !((splitChar ':' (b64decode t).data).getD 1 [] == []) &&
           decide (2000 ≤ now - ts) && decide (now - ts ≤ 300000))) &&
      !(regActive reg now (tokenFingerprint t))

/-! ## Connection dispatcher (src/server.js lines 396-421) -/

/-- Modelled from the spec: the external bare-server component's routing
predicate (`bare.shouldRoute`), which the specification describes as
matching the configured proxy mount, the fixed `/bare/` path. -/
def shouldRouteBare (url : String) : Bool :=
  strStartsWith url "/bare/"

/-- Outcome of the raw HTTP request dispatcher. -/
inductive HttpOutcome where
  | forwardedToBare : String → HttpOutcome
  | appHandled : HttpOutcome
  | responded : HttpResponse → HttpOutcome
deriving DecidableEq

/-- The `createServer` callback of src/server.js line 396, as a function
of the random draw `i` used by `getRandomIPv6` when the request is
forwarded. -/
def httpDispatch (env : Env) (i : Nat) (req : Req) : HttpOutcome :=
  if shouldRouteBare req.url then
    match handleHttpVerification env req with
    | .next => .forwardedToBare (getRandomIPv6 i)
    | .respond r => .responded r
  else .appHandled

/-- Outcome of the upgrade dispatcher. -/
inductive UpgradeOutcome where
  | forwardedToBare : String → UpgradeOutcome
  | forwardedToWisp : String → UpgradeOutcome
  | destroyed : UpgradeOutcome
  | socketEnded : UpgradeOutcome
deriving DecidableEq

/-- The `server.on('upgrade')` callback of src/server.js line 407. -/
def upgradeDispatch (env : Env) (i : Nat) (req : Req) : UpgradeOutcome :=
  if shouldRouteBare req.url then
    if upgradeVerifProceed env req then .forwardedToBare (getRandomIPv6 i) else .destroyed
  else if strStartsWith req.url "/wisp/" then
    if upgradeVerifProceed env req then .forwardedToWisp (getRandomIPv6 i) else .destroyed
  else .socketEnded

/-! ## Sample configurations and requests used by concrete instances -/

/-- A deployment with the bot-token secret set. -/
def sampleEnv : Env := { botToken := some "secret" }

/-- The specification's end-to-end example: `curl/8.0` with `accept: */*`
on a proxy-namespace path, no cookie. -/
def curlReq : Req :=
  { method := "GET", url := "/bare/v1/",
    headers := [("user-agent", "curl/8.0"), ("accept", "*/*")] }

/-- A browser-like request that accepts HTML, with no cookie and no
bot-token header, on a proxy-namespace path. -/
def browserNoCookieReq : Req :=
  { method := "GET", url := "/bare/v1/",
    headers := [("user-agent", "Mozilla/5.0"), ("accept", "text/html")] }

/-- A browser-like request that accepts HTML, with no cookie but with the
matching bot-token header. -/
def browserBotTokenReq : Req :=
  { method := "GET", url := "/bare/v1/",
    headers := [("user-agent", "Mozilla/5.0"), ("accept", "text/html"),
      ("x-bot-token", "secret")] }

/-- An upgrade request to a WISP path with a non-browser User-Agent and
no cookie. -/
def wispCurlReq : Req :=
  { method := "GET", url := "/wisp/session", headers := [("user-agent", "curl/8.0")] }

/-- First of a pair of requests agreeing on the four decision headers. -/
def headerTwinA : Req :=
  { method := "GET", url := "/bare/v1/",
    headers := [("user-agent", "curl/8.0"), ("accept", "*/*"), ("x-extra", "1")] }

/-- Second of the pair: different method, path, and extra headers. -/
def headerTwinB : Req :=
  { method := "POST", url := "/bare/v2/other",
    headers := [("accept", "*/*"), ("user-agent", "curl/8.0"), ("host", "example")] }

/-- A request with a malformed cookie header, no User-Agent and no
Accept header. -/
def malformedReq : Req :=
  { method := "GET", url := "/bare/v1/",
    headers := [("cookie", "=;; ;garbage==x;verified")] }

/-- A deployment whose configured secret is not base64 material. -/
def bangEnv : Env := { botToken := some "!!!" }

/-- A request presenting that secret in the bot-token header. -/
def bangReq : Req :=
  { method := "GET", url := "/bare/v1/", headers := [("x-bot-token", "!!!")] }

/-- A request presenting a structurally valid, fresh token that differs
from the configured secret. -/
def goodTokReq : Req :=
  { method := "GET", url := "/bare/v1/", headers := [("x-bot-token", "MTAwMDAwOnI=")] }

/-- A verified browser request: sentinel cookie, browser User-Agent,
accepts HTML. -/
def verifiedBrowserReq : Req :=
  { method := "GET", url := "/bare/v1/",
    headers := [("user-agent", "Mozilla/5.0 Chrome/120"), ("accept", "text/html"),
      ("cookie", "verified=ok")] }

/-! ## Syntactic IPv6 well-formedness

The specification calls the allocator's output "a syntactically valid
address value".  `isIPv6Lite` checks the shape the allocator is expected
to produce: colon-separated groups of one to four hex digits, at most
eight groups, with exactly one empty group marking a single `::`
elision. -/

/-- Hexadecimal digit character test. -/
def hexB (c : Char) : Bool :=
  ('0' ≤ c && c ≤ '9') || ('a' ≤ c && c ≤ 'f') || ('A' ≤ c && c ≤ 'F')

/-- A non-elided IPv6 group: one to four hex digits. -/
def goodGroup (g : List Char) : Bool :=
  decide (1 ≤ g.length) && decide (g.length ≤ 4) && g.all hexB

/-- Syntactic validity of an IPv6 literal with one `::` elision. -/
def isIPv6Lite (s : String) : Bool :=
  let ps := splitChar ':' s.data
  (ps.countP (fun g => g.isEmpty) == 1) && decide (ps.length ≤ 8) &&
    ps.all (fun g => g.isEmpty || goodGroup g)

/-! ## Error-aware mirrors of the verification functions

To state that the verification path never aborts a request, each function
is mirrored in `Except String`, where dereferencing a possibly-`undefined`
value (calling a method on it without a guard) is an explicit
`TypeError`.  The theorems below show every input reaches `Except.ok`. -/

/-- Calling a method on a possibly-`undefined` JavaScript value. -/
def jsDeref {α : Type} : Option α → Except String α
  | none => Except.error "TypeError"
  | some a => Except.ok a

/-- `parseCookies` with the `if (!header)` guard made explicit: only when
the guard passes is the header dereferenced (`header.split(';')`). -/
def parseCookiesE (hdr : Option String) : Except String (List (String × Option String)) :=
  if hdr = none ∨ hdr = some "" then Except.ok []
  else
    match jsDeref hdr with
    | Except.error e => Except.error e
    | Except.ok h => Except.ok ((splitChar ';' h.data).map parseCookieItem)

/-- `isVerified` in `Except String`; property reads on the parsed cookie
object and the strict comparison with the possibly-`undefined` header
and environment value are total in JavaScript and stay pure here. -/
def isVerifiedE (env : Env) (req : Req) : Except String Bool :=
  match parseCookiesE (reqHeader req "cookie") with
  | Except.error e => Except.error e
  | Except.ok cookies =>
    Except.ok
      ((match cookieProp cookies "verified" with
        | some (some v) => v == "ok"
        | _ => false) || jsStrEq (reqHeader req "x-bot-token") env.botToken)

/-- `handleHttpVerification` in `Except String`; the Accept header is
read through the optional chain `?.includes`, which never throws. -/
def handleHttpVerificationE (env : Env) (req : Req) : Except String HttpVerifResult :=
  if !acceptsHtml req then Except.ok .next
  else
    match isVerifiedE env req with
    | Except.error e => Except.error e
    | Except.ok v =>
      if v && isBrowser req then Except.ok .next
      else if !isBrowser req then Except.ok (.respond forbiddenResponse)
      else Except.ok (.respond challengeResponse)

/-- `handleUpgradeVerification` in `Except String`: the source computes
`isVerified(req)` first, then the WISP short-circuit, then the
verified-browser test. -/
def handleUpgradeVerificationE (env : Env) (req : Req) : Except String Bool :=
  match isVerifiedE env req with
  | Except.error e => Except.error e
  | Except.ok v =>
    Except.ok (strStartsWith req.url "/wisp/" || (v && isBrowser req))

/-! ## Helper lemmas -/

theorem validateBotToken_cases (now : Int) (t : String) (reg : List (String × Int)) :
    validateBotToken now (some t) reg = (false, reg)
    ∨ (validateBotToken now (some t) reg = (true, (tokenFingerprint t, now) :: reg)
        ∧ tokenChecksOut now t = true
        ∧ regActive reg now (tokenFingerprint t) = false) := by
  unfold validateBotToken
  by_cases h1 : tokenChecksOut now t <;> simp [h1]

theorem tokenChecksOut_eq (now : Int) (t : String) :
    tokenChecksOut now t =
      (!(t == "") && (splitChar ':' (b64decode t).data).length == 2 &&
        (match jsParseInt ⟨(splitChar ':' (b64decode t).data).headD []⟩ with
         | none => false
         | some ts =>
           !((splitChar ':' (b64decode t).data).getD 1 [] == []) &&
             decide (2000 ≤ now - ts) && decide (now - ts ≤ 300000))) := by
  unfold tokenChecksOut
  by_cases h1 : t = ""
  · rw [if_pos h1]
    have hb : (t == "") = true := by simp [h1]
    rw [hb, Bool.not_true, Bool.false_and, Bool.false_and]
  · rw [if_neg h1]
    have hb : (t == "") = false := by simp [h1]
    rw [hb, Bool.not_false, Bool.true_and]
    generalize splitChar ':' (b64decode t).data = ps
    by_cases h2 : ps.length = 2
    · rw [if_neg (not_not_intro h2)]
      have hl : (ps.length == 2) = true := by simp [h2]
      rw [hl, Bool.true_and]
      cases jsParseInt ⟨ps.headD []⟩ with
      | none => rfl
      | some ts =>
        show (if ps.getD 1 [] = [] then false
              else if now - ts < 2000 then false
              else if now - ts > 300000 then false else true)
            = (!(ps.getD 1 [] == []) && decide (2000 ≤ now - ts) && decide (now - ts ≤ 300000))
        by_cases h4 : ps.getD 1 [] = []
        · rw [if_pos h4]
          have hg : (ps.getD 1 [] == []) = true := by
            simp only [beq_iff_eq]
            exact h4
          rw [hg, Bool.not_true, Bool.false_and, Bool.false_and]
        · rw [if_neg h4]
          have hg : (ps.getD 1 [] == []) = false := by
            simp only [beq_eq_false_iff_ne, ne_eq]
            exact h4
          rw [hg, Bool.not_false, Bool.true_and]
          by_cases h5 : now - ts < 2000
          · rw [if_pos h5]
            have : decide (2000 ≤ now - ts) = false := by simp; omega
            rw [this, Bool.false_and]
          · rw [if_neg h5]
            have h5d : decide (2000 ≤ now - ts) = true := by simp; omega
            rw [h5d, Bool.true_and]
            by_cases h6 : now - ts > 300000
            · rw [if_pos h6]
              have : decide (now - ts ≤ 300000) = false := by simp; omega
              rw [this]
            · rw [if_neg h6]
              have : decide (now - ts ≤ 300000) = true := by simp; omega
              rw [this]
    · rw [if_pos h2]
      have hl : (ps.length == 2) = false := by simp [h2]
      rw [hl, Bool.false_and]

/-! ## Claim theorems -/

/-- Claim C6: the bot-token validator accepts a token if and only if it
base64-decodes to exactly two colon-separated parts `timestamp:random`
with a parseable numeric timestamp and non-empty random part, its age is
at least the minimum delay (2000 ms) and at most the maximum age
(300000 ms), and its fingerprint is not live in the single-use registry;
every malformed, too-young, too-old, or replayed token is rejected. -/
theorem c6_validator_accepts_iff (now : Int) (token : Option String)
    (reg : List (String × Int)) :
    (validateBotToken now token reg).fst = tokenAcceptSpecB now token reg := by
  cases token with
  | none => rfl
  | some t =>
    have hspec : tokenAcceptSpecB now (some t) reg =
        (tokenChecksOut now t && !(regActive reg now (tokenFingerprint t))) := by
      show ((!(t == "") && (splitChar ':' (b64decode t).data).length == 2 &&
          (match jsParseInt ⟨(splitChar ':' (b64decode t).data).headD []⟩ with
           | none => false
           | some ts =>
             !((splitChar ':' (b64decode t).data).getD 1 [] == []) &&
               decide (2000 ≤ now - ts) && decide (now - ts ≤ 300000))) &&
          !(regActive reg now (tokenFingerprint t)))
          = (tokenChecksOut now t && !(regActive reg now (tokenFingerprint t)))
      rw [← tokenChecksOut_eq]
    rw [hspec]
    show (if tokenChecksOut now t then
            if regActive reg now (tokenFingerprint t) then (false, reg)
            else (true, (tokenFingerprint t, now) :: reg)
          else (false, reg)).fst
        = (tokenChecksOut now t && !(regActive reg now (tokenFingerprint t)))
    by_cases h1 : tokenChecksOut now t <;> simp [h1]
    by_cases h2 : regActive reg now (tokenFingerprint t) <;> simp [h2]

/-- Claim C9: whenever the bot-token validator rejects — malformed,
too-young, too-old, or replayed token — the registry is returned exactly
as it was; a fingerprint entry is inserted only on the accepting run. -/
theorem c9_registry_atomic_on_reject (now : Int) (token : Option String)
    (reg : List (String × Int)) :
    ((validateBotToken now token reg).fst = false → (validateBotToken now token reg).snd = reg)
    ∧ ((validateBotToken now token reg).fst = true →
        (validateBotToken now token reg).snd =
          (tokenFingerprint (token.getD ""), now) :: reg) := by
  cases token with
  | none => simp [validateBotToken]
  | some t =>
    rcases validateBotToken_cases now t reg with h | ⟨h, _, _⟩ <;> simp [h]

theorem regActive_mono (reg : List (String × Int)) (t1 t2 : Int) (h : String)
    (hf : regActive reg t1 h = false) (hle : t1 ≤ t2) : regActive reg t2 h = false := by
  simp only [regActive, List.any_eq_false, Bool.and_eq_true, beq_iff_eq,
    decide_eq_true_eq, not_and] at hf ⊢
  intro e he heq
  have := hf e he heq
  omega

/-- Claim C5: a well-formed bot-token accepted once is rejected on any
second presentation of the identical token while its fingerprint is live
in the registry; the fingerprint is evicted only by the 900000 ms
retention window (the accepting call removes nothing), after which the
token is no longer remembered. -/
theorem c5_single_use (t1 t2 : Int) (tok : String) (reg reg2 : List (String × Int))
    (hacc : validateBotToken t1 (some tok) reg = (true, reg2))
    (hle : t1 ≤ t2) :
    (t2 < t1 + 900000 → (validateBotToken t2 (some tok) reg2).fst = false)
    ∧ (t1 + 900000 ≤ t2 → regActive reg2 t2 (tokenFingerprint tok) = false)
    ∧ (∀ e, e ∈ reg → e ∈ reg2) := by
  rcases validateBotToken_cases t1 tok reg with h | ⟨h, hchk, hreg⟩
  · rw [h] at hacc
    exact absurd hacc (by simp)
  · rw [h] at hacc
    have hr2 : reg2 = (tokenFingerprint tok, t1) :: reg := by
      have := (Prod.mk.injEq _ _ _ _).mp hacc
      simp at this
      exact this.symm
    subst hr2
    refine ⟨?_, ?_, ?_⟩
    · intro hwin
      have hact : regActive ((tokenFingerprint tok, t1) :: reg) t2 (tokenFingerprint tok)
          = true := by
        simp [regActive, List.any_cons]
        left
        omega
      unfold validateBotToken
      by_cases hc : tokenChecksOut t2 tok <;> simp [hc, hact]
    · intro hafter
      have hhead : ¬(t2 < t1 + 900000) := by omega
      have htail : regActive reg t2 (tokenFingerprint tok) = false :=
        regActive_mono reg t1 t2 _ hreg hle
      simp only [regActive, List.any_cons] at htail ⊢
      simp [hhead, htail]
    · intro e he
      exact List.mem_cons_of_mem _ he

/-- Witness for C5 at a concrete accepted token: base64 of `100000:r`,
accepted at time 103000 (age 3000 ms), re-presented at 104000. -/
theorem c5_single_use_witness :
    validateBotToken 103000 (some "MTAwMDAwOnI=") [] = (true, [("MTAwMDAwOnI=", 103000)])
    ∧ (103000 : Int) ≤ 104000
    ∧ (validateBotToken 104000 (some "MTAwMDAwOnI=") [("MTAwMDAwOnI=", 103000)]).fst
        = false :=
  ⟨by decide, by decide,
    (c5_single_use 103000 104000 "MTAwMDAwOnI=" [] [("MTAwMDAwOnI=", 103000)]
      (by decide) (by decide)).left (by decide)⟩

theorem wisp_not_bare (u : String) (h : strStartsWith u "/wisp/" = true) :
    strStartsWith u "/bare/" = false := by
  unfold strStartsWith at h ⊢
  have hw : "/wisp/".data = ['/', 'w', 'i', 's', 'p', '/'] := rfl
  have hb : "/bare/".data = ['/', 'b', 'a', 'r', 'e', '/'] := rfl
  rw [hw] at h
  rw [hb]
  cases hu : u.data with
  | nil =>
    rw [hu] at h
    simp [listIsPre] at h
  | cons c1 t1 =>
    cases t1 with
    | nil =>
      rw [hu] at h
      simp [listIsPre] at h
    | cons c2 t2 =>
      rw [hu] at h
      simp only [listIsPre, Bool.and_eq_true, beq_iff_eq] at h
      obtain ⟨h1, h2, -⟩ := h
      subst h2
      simp [listIsPre]

/-- Claim C4: every upgrade request whose path begins with `/wisp/` is
forwarded to the WISP handler without any verification check — even with
no cookie and a non-browser User-Agent the connection reaches the WISP
handler rather than being destroyed. -/
theorem c4_wisp_upgrade_bypasses_verification (env : Env) (i : Nat) (req : Req)
    (h : strStartsWith req.url "/wisp/" = true) :
    upgradeDispatch env i req = .forwardedToWisp (getRandomIPv6 i) := by
  unfold upgradeDispatch shouldRouteBare
  rw [wisp_not_bare _ h]
  simp [h, upgradeVerifProceed]

/-- Witness for C4: a WISP upgrade with a curl User-Agent and no cookie
is forwarded to the WISP handler. -/
theorem c4_wisp_upgrade_bypasses_verification_witness :
    strStartsWith wispCurlReq.url "/wisp/" = true
    ∧ isBrowser wispCurlReq = false
    ∧ reqHeader wispCurlReq "cookie" = none
    ∧ upgradeDispatch sampleEnv 1 wispCurlReq
        = .forwardedToWisp (getRandomIPv6 1) :=
  ⟨by decide, by decide, by decide,
    c4_wisp_upgrade_bypasses_verification sampleEnv 1 wispCurlReq (by decide)⟩

/-- Claim C10: the dispatcher-level HTTP verification decision is a pure
function of the cookie, x-bot-token, user-agent, and accept headers
(plus the configured secret): two requests agreeing on those four
headers receive the same decision whatever their method, path, or other
headers. -/
theorem c10_decision_depends_only_on_four_headers (env : Env) (r1 r2 : Req)
    (hc : reqHeader r1 "cookie" = reqHeader r2 "cookie")
    (ht : reqHeader r1 "x-bot-token" = reqHeader r2 "x-bot-token")
    (hu : reqHeader r1 "user-agent" = reqHeader r2 "user-agent")
    (ha : reqHeader r1 "accept" = reqHeader r2 "accept") :
    handleHttpVerification env r1 = handleHttpVerification env r2 := by
  unfold handleHttpVerification acceptsHtml isVerified isBrowser
  rw [hc, ht, hu, ha]

/-- Witness for C10: two requests with different methods, paths, and
extra headers but the same four decision headers get the same decision. -/
theorem c10_decision_depends_only_on_four_headers_witness :
    reqHeader headerTwinA "cookie" = reqHeader headerTwinB "cookie"
    ∧ reqHeader headerTwinA "x-bot-token" = reqHeader headerTwinB "x-bot-token"
    ∧ reqHeader headerTwinA "user-agent" = reqHeader headerTwinB "user-agent"
    ∧ reqHeader headerTwinA "accept" = reqHeader headerTwinB "accept"
    ∧ handleHttpVerification sampleEnv headerTwinA
        = handleHttpVerification sampleEnv headerTwinB :=
  ⟨by decide, by decide, by decide, by decide,
    c10_decision_depends_only_on_four_headers sampleEnv headerTwinA headerTwinB
      (by decide) (by decide) (by decide) (by decide)⟩

theorem parseCookiesE_ok (hdr : Option String) :
    parseCookiesE hdr = Except.ok (parseCookies hdr) := by
  cases hdr with
  | none => rfl
  | some h =>
    by_cases he : h = ""
    · subst he
      rfl
    · simp [parseCookiesE, parseCookies, jsDeref, he]

theorem isVerifiedE_ok (env : Env) (req : Req) :
    isVerifiedE env req = Except.ok (isVerified env req) := by
  unfold isVerifiedE isVerified
  rw [parseCookiesE_ok]

theorem handleHttpVerificationE_ok (env : Env) (req : Req) :
    handleHttpVerificationE env req = Except.ok (handleHttpVerification env req) := by
  unfold handleHttpVerificationE handleHttpVerification
  rw [isVerifiedE_ok]
  by_cases hA : acceptsHtml req <;> simp [hA]
  by_cases hV : isVerified env req <;> by_cases hB : isBrowser req <;> simp [hV, hB]

theorem handleUpgradeVerificationE_ok (env : Env) (req : Req) :
    handleUpgradeVerificationE env req = Except.ok (upgradeVerifProceed env req) := by
  unfold handleUpgradeVerificationE upgradeVerifProceed
  rw [isVerifiedE_ok]

/-- Claim C8: the verification functions are total over arbitrary header
maps — cookie parsing, the HTTP decision and the upgrade decision reach
`Except.ok` on every request, including missing, empty or malformed
cookie, User-Agent, or Accept headers — and a cookie that does not parse
to the sentinel together with a non-matching bot-token header yields the
not-verified outcome rather than an error. -/
theorem c8_verification_total (env : Env) (req : Req) :
    parseCookiesE (reqHeader req "cookie") = Except.ok (parseCookies (reqHeader req "cookie"))
    ∧ handleHttpVerificationE env req = Except.ok (handleHttpVerification env req)
    ∧ handleUpgradeVerificationE env req = Except.ok (upgradeVerifProceed env req)
    ∧ (cookieSentinel (reqHeader req "cookie") = false →
        jsStrEq (reqHeader req "x-bot-token") env.botToken = false →
        isVerified env req = false) := by
  refine ⟨parseCookiesE_ok _, handleHttpVerificationE_ok env req,
    handleUpgradeVerificationE_ok env req, ?_⟩
  intro hck htk
  unfold isVerified
  unfold cookieSentinel at hck
  show ((match cookieProp (parseCookies (reqHeader req "cookie")) "verified" with
        | some (some v) => v == "ok"
        | _ => false) || jsStrEq (reqHeader req "x-bot-token") env.botToken) = false
  rw [hck, htk]
  rfl

/-- Witness for C8 at a request with a malformed cookie header and no
User-Agent or Accept headers. -/
theorem c8_verification_total_witness :
    cookieSentinel (reqHeader malformedReq "cookie") = false
    ∧ jsStrEq (reqHeader malformedReq "x-bot-token") sampleEnv.botToken = false
    ∧ isVerified sampleEnv malformedReq = false :=
  ⟨by decide, by decide,
    (c8_verification_total sampleEnv malformedReq).right.right.right (by decide) (by decide)⟩

theorem bare_not_wisp (u : String) (h : strStartsWith u "/bare/" = true) :
    strStartsWith u "/wisp/" = false := by
  unfold strStartsWith at h ⊢
  have hb : "/bare/".data = ['/', 'b', 'a', 'r', 'e', '/'] := rfl
  have hw : "/wisp/".data = ['/', 'w', 'i', 's', 'p', '/'] := rfl
  rw [hb] at h
  rw [hw]
  cases hu : u.data with
  | nil =>
    rw [hu] at h
    simp [listIsPre] at h
  | cons c1 t1 =>
    cases t1 with
    | nil =>
      rw [hu] at h
      simp [listIsPre] at h
    | cons c2 t2 =>
      rw [hu] at h
      simp only [listIsPre, Bool.and_eq_true, beq_iff_eq] at h
      obtain ⟨h1, h2, -⟩ := h
      subst h2
      simp [listIsPre]

/-- Claim C1 counterexample: the HTTP dispatcher forwards the
specification's own example request — user-agent `curl/8.0`, accept
`*/*`, no cookie, proxy-namespace path — to the bare handler instead of
rejecting it with a 403. -/
theorem c1_counterexample :
    isBrowser curlReq = false
    ∧ acceptsHtml curlReq = false
    ∧ httpDispatch sampleEnv 1 curlReq = .forwardedToBare "2607:5300:205:200:0001::1" :=
  ⟨by decide, by decide, by decide⟩

/-- Claim C1 amended: a request with a non-browser User-Agent is
rejected by the HTTP transport with the 403 text/plain response only
when its Accept header contains `text/html`; when it does not, the
request is forwarded unverified.  On the upgrade transport a non-browser
client outside the WISP namespace never proceeds, and a bare-routed
upgrade is destroyed, regardless of cookie state. -/
theorem c1_amended_nonbrowser_handling (env : Env) (i : Nat) (req : Req)
    (hb : isBrowser req = false) :
    (acceptsHtml req = true → handleHttpVerification env req = .respond forbiddenResponse)
    ∧ (acceptsHtml req = false → handleHttpVerification env req = .next)
    ∧ (strStartsWith req.url "/wisp/" = false → upgradeVerifProceed env req = false)
    ∧ (shouldRouteBare req.url = true → upgradeDispatch env i req = .destroyed)
    ∧ forbiddenResponse.status = 403 ∧ forbiddenResponse.contentType = "text/plain"
    ∧ forbiddenResponse.body = "Forbidden" := by
  have hup : strStartsWith req.url "/wisp/" = false → upgradeVerifProceed env req = false := by
    intro hW
    unfold upgradeVerifProceed
    simp [hW, hb]
  refine ⟨?_, ?_, hup, ?_, rfl, rfl, rfl⟩
  · intro hA
    unfold handleHttpVerification
    simp [hA, hb]
  · intro hA
    unfold handleHttpVerification
    simp [hA]
  · intro hBare
    have hW : strStartsWith req.url "/wisp/" = false := bare_not_wisp _ hBare
    unfold upgradeDispatch shouldRouteBare
    unfold shouldRouteBare at hBare
    simp [hBare, hup hW]

/-- Witness for the amended C1 at the curl request: not a browser, does
not accept HTML, and is forwarded by the HTTP handler. -/
theorem c1_amended_nonbrowser_handling_witness :
    isBrowser curlReq = false
    ∧ acceptsHtml curlReq = false
    ∧ handleHttpVerification sampleEnv curlReq = .next :=
  ⟨by decide, by decide,
    (c1_amended_nonbrowser_handling sampleEnv 1 curlReq (by decide)).right.left (by decide)⟩

/-- Claim C2 counterexample: a deployment whose secret is `!!!` treats a
request presenting `!!!` as prior-verified although `!!!` fails the
structural token validation; conversely a structurally valid fresh token
that differs from the secret is not prior-verified. -/
theorem c2_counterexample :
    isVerified bangEnv bangReq = true
    ∧ (validateBotToken 103000 (some "!!!") []).fst = false
    ∧ isVerified sampleEnv goodTokReq = false
    ∧ (validateBotToken 103000 (some "MTAwMDAwOnI=") []).fst = true :=
  ⟨by decide, by decide, by decide, by decide⟩

/-- Claim C2 amended: the prior-verified predicate of the dispatcher
holds if and only if the verification cookie parses to the sentinel
value `ok` or the `x-bot-token` header is strictly equal to the
configured `BOT_TOKEN` secret; the structural token validation of the
signup flow is not consulted. -/
theorem c2_amended_prior_verified_iff (env : Env) (req : Req) :
    isVerified env req = true ↔
      (cookieSentinel (reqHeader req "cookie") = true
        ∨ jsStrEq (reqHeader req "x-bot-token") env.botToken = true) := by
  unfold isVerified cookieSentinel
  show ((match cookieProp (parseCookies (reqHeader req "cookie")) "verified" with
        | some (some v) => v == "ok"
        | _ => false) || jsStrEq (reqHeader req "x-bot-token") env.botToken) = true ↔ _
  rw [Bool.or_eq_true]

/-- Witness for the amended C2 in both directions at concrete requests. -/
theorem c2_amended_prior_verified_iff_witness :
    isVerified sampleEnv verifiedBrowserReq = true
    ∧ (cookieSentinel (reqHeader verifiedBrowserReq "cookie") = true
        ∨ jsStrEq (reqHeader verifiedBrowserReq "x-bot-token") sampleEnv.botToken = true) :=
  ⟨by decide,
    (c2_amended_prior_verified_iff sampleEnv verifiedBrowserReq).mp (by decide)⟩

/-- Claim C7 counterexample: a browser-like request accepting HTML with
no cookie but with the matching bot-token header is forwarded
(`next()`), not challenged — so "no valid verification cookie" alone
does not force the challenge. -/
theorem c7_counterexample :
    isBrowser browserBotTokenReq = true
    ∧ acceptsHtml browserBotTokenReq = true
    ∧ reqHeader browserBotTokenReq "cookie" = none
    ∧ handleHttpVerification sampleEnv browserBotTokenReq = .next :=
  ⟨by decide, by decide, by decide, by decide⟩

/-- Claim C7 amended: a browser-like request accepting HTML with neither
the sentinel cookie nor a matching bot-token header receives the
challenge instead of being forwarded: status 200, text/html, a
Set-Cookie naming the verification cookie with the sentinel value,
Max-Age 86400, Path=/, HttpOnly, SameSite=Lax, and a body whose script
reloads the current path. -/
theorem c7_amended_challenge (env : Env) (req : Req)
    (hB : isBrowser req = true) (hA : acceptsHtml req = true)
    (hck : cookieSentinel (reqHeader req "cookie") = false)
    (htk : jsStrEq (reqHeader req "x-bot-token") env.botToken = false) :
    handleHttpVerification env req = .respond challengeResponse
    ∧ challengeResponse.status = 200
    ∧ challengeResponse.contentType = "text/html"
    ∧ challengeResponse.setCookie =
        some "verified=ok; Max-Age=86400; Path=/; HttpOnly; SameSite=Lax"
    ∧ strIncludes challengeResponse.body
        "window.location.replace(window.location.pathname)" = true := by
  have hV : isVerified env req = false := by
    unfold isVerified
    unfold cookieSentinel at hck
    show ((match cookieProp (parseCookies (reqHeader req "cookie")) "verified" with
          | some (some v) => v == "ok"
          | _ => false) || jsStrEq (reqHeader req "x-bot-token") env.botToken) = false
    rw [hck, htk]
    rfl
  refine ⟨?_, rfl, rfl, rfl, by decide⟩
  unfold handleHttpVerification
  simp [hA, hV, hB]

/-- Witness for the amended C7: the browser request with no cookie and
no bot token gets the challenge response. -/
theorem c7_amended_challenge_witness :
    isBrowser browserNoCookieReq = true
    ∧ acceptsHtml browserNoCookieReq = true
    ∧ cookieSentinel (reqHeader browserNoCookieReq "cookie") = false
    ∧ jsStrEq (reqHeader browserNoCookieReq "x-bot-token") sampleEnv.botToken = false
    ∧ handleHttpVerification sampleEnv browserNoCookieReq = .respond challengeResponse :=
  ⟨by decide, by decide, by decide, by decide,
    (c7_amended_challenge sampleEnv browserNoCookieReq
      (by decide) (by decide) (by decide) (by decide)).left⟩

theorem hexB_ne_colon (c : Char) (h : hexB c = true) : c ≠ ':' := by
  intro e
  rw [e] at h
  exact absurd h (by decide)

theorem splitChar_group (sep : Char) (g r : List Char) (hg : ∀ c ∈ g, c ≠ sep) :
    splitChar sep (g ++ sep :: r) = g :: splitChar sep r := by
  induction g with
  | nil =>
    show splitChar sep (sep :: r) = [] :: splitChar sep r
    rw [splitChar, if_pos rfl]
  | cons c t ih =>
    have hc : c ≠ sep := hg c (by simp)
    have ht : ∀ x ∈ t, x ≠ sep := fun x hx => hg x (by simp [hx])
    show splitChar sep (c :: (t ++ sep :: r)) = (c :: t) :: splitChar sep r
    rw [splitChar, if_neg hc, ih ht]

theorem hexDigitChar_hexB (m : Nat) (h : m < 16) : hexB (hexDigitChar m) = true := by
  interval_cases m <;> decide

theorem natToHexGo_hexB (fuel : Nat) :
    ∀ (n : Nat) (c : Char), c ∈ natToHexGo fuel n → hexB c = true := by
  induction fuel with
  | zero =>
    intro n c hm
    simp [natToHexGo] at hm
  | succ f ih =>
    intro n c hm
    cases n with
    | zero => simp [natToHexGo] at hm
    | succ m =>
      rw [natToHexGo] at hm
      · rcases List.mem_append.mp hm with hl | hr
        · exact ih _ _ hl
        · rw [List.mem_singleton] at hr
          subst hr
          exact hexDigitChar_hexB _ (Nat.mod_lt _ (by omega))
      · omega

theorem natToHexAux_hexB (n : Nat) (c : Char) (h : c ∈ natToHexAux n) : hexB c = true := by
  unfold natToHexAux at h
  by_cases hz : n = 0
  · rw [if_pos hz] at h
    rw [List.mem_singleton] at h
    subst h
    decide
  · rw [if_neg hz] at h
    exact natToHexGo_hexB n n c h

theorem padStart4_hexB (l : List Char) (hl : ∀ c ∈ l, hexB c = true) :
    ∀ c ∈ padStart4 l, hexB c = true := by
  intro c hc
  rcases List.mem_append.mp hc with hrep | hmem
  · rw [List.eq_of_mem_replicate hrep]
    decide
  · exact hl c hmem

theorem natToHexGo_len (fuel : Nat) :
    ∀ (n k : Nat), n < 16 ^ k → (natToHexGo fuel n).length ≤ k := by
  induction fuel with
  | zero =>
    intro n k _
    simp [natToHexGo]
  | succ f ih =>
    intro n k h
    cases n with
    | zero => simp [natToHexGo]
    | succ m =>
      cases k with
      | zero => simp at h
      | succ k2 =>
        rw [natToHexGo, List.length_append]
        · have hdiv : (m + 1) / 16 < 16 ^ k2 := by
            have h16 : (m + 1) < 16 ^ k2 * 16 := by
              rw [pow_succ] at h
              exact h
            exact (Nat.div_lt_iff_lt_mul (by omega)).mpr h16
          have := ih ((m + 1) / 16) k2 hdiv
          simp
          omega
        · omega

theorem padStart4_len (l : List Char) (h : l.length ≤ 4) : (padStart4 l).length = 4 := by
  unfold padStart4
  rw [List.length_append, List.length_replicate]
  omega

theorem natToHexAux_len (n : Nat) (h : n < 65536) : (natToHexAux n).length ≤ 4 := by
  unfold natToHexAux
  by_cases hz : n = 0
  · rw [if_pos hz]
    decide
  · rw [if_neg hz]
    exact natToHexGo_len n n 4 (by norm_num; omega)

theorem isIPv6Lite_block (hx : List Char) (hlen : hx.length = 4)
    (hhex : ∀ c ∈ hx, hexB c = true) :
    isIPv6Lite ⟨"2607:5300:205:200:".data ++ hx ++ "::1".data⟩ = true := by
  have hne : ∀ c ∈ hx, c ≠ ':' := fun c hc => hexB_ne_colon c (hhex c hc)
  have hxe : hx.isEmpty = false := by
    cases hx with
    | nil => simp at hlen
    | cons a t => rfl
  have hdata : "2607:5300:205:200:".data ++ hx ++ "::1".data
      = ['2', '6', '0', '7'] ++ ':' ::
          (['5', '3', '0', '0'] ++ ':' ::
            (['2', '0', '5'] ++ ':' ::
              (['2', '0', '0'] ++ ':' :: (hx ++ ':' :: (':' :: ['1']))))) := by
    show ['2', '6', '0', '7', ':', '5', '3', '0', '0', ':', '2', '0', '5', ':',
        '2', '0', '0', ':'] ++ hx ++ [':', ':', '1'] = _
    simp [List.append_assoc]
  have hsplit : splitChar ':' ("2607:5300:205:200:".data ++ hx ++ "::1".data)
      = [['2', '6', '0', '7'], ['5', '3', '0', '0'], ['2', '0', '5'], ['2', '0', '0'],
          hx, [], ['1']] := by
    rw [hdata, splitChar_group ':' ['2', '6', '0', '7'] _ (by decide),
      splitChar_group ':' ['5', '3', '0', '0'] _ (by decide),
      splitChar_group ':' ['2', '0', '5'] _ (by decide),
      splitChar_group ':' ['2', '0', '0'] _ (by decide),
      splitChar_group ':' hx _ hne]
    rfl
  unfold isIPv6Lite
  show ((splitChar ':' ("2607:5300:205:200:".data ++ hx ++ "::1".data)).countP
        (fun g => g.isEmpty) == 1
      && decide ((splitChar ':' ("2607:5300:205:200:".data ++ hx ++ "::1".data)).length ≤ 8)
      && (splitChar ':' ("2607:5300:205:200:".data ++ hx ++ "::1".data)).all
          (fun g => g.isEmpty || goodGroup g)) = true
  rw [hsplit]
  have hgood : goodGroup hx = true := by
    unfold goodGroup
    rw [hlen]
    simp [List.all_eq_true]
    exact hhex
  simp [List.countP, List.countP.go, hxe, goodGroup, hgood]
  refine ⟨by decide, by decide, by decide, by decide, ⟨⟨?_, ?_⟩, hhex⟩, by decide⟩ <;> omega

/-- Claim C3 counterexample: the draw `i = 1` is a possible value of
`Math.floor(Math.random() * 5000) + 1`; it yields the address
`2607:5300:205:200:0001::1`, whose random segment `0x0001` lies inside
the rotator's reserved range (roblox-1..196), and the dispatcher
attaches exactly this address to a forwarded request. -/
theorem c3_counterexample :
    (1 ≤ 1 ∧ 1 ≤ 5000)
    ∧ getRandomIPv6 1 = "2607:5300:205:200:0001::1"
    ∧ isReservedSeg 1 = true
    ∧ httpDispatch sampleEnv 1 verifiedBrowserReq
        = .forwardedToBare "2607:5300:205:200:0001::1" :=
  ⟨by decide, by decide, by decide, by decide⟩

/-- Claim C3 amended: every address the dispatcher's allocator
(`getRandomIPv6`) attaches is the fixed block followed by the draw as
four padded hex digits and `::1`, and is syntactically a valid address
— but its random portion is drawn from 1..5000 and can fall inside the
reserved sub-range 0x1..0xc4; only the (unused) `IPv6Rotator` retries
draws whose first segment is reserved. -/
theorem c3_amended_allocator (i : Nat) (h1 : 1 ≤ i) (h2 : i ≤ 5000) :
    getRandomIPv6 i
      = ⟨"2607:5300:205:200:".data ++ padStart4 (natToHexAux i) ++ "::1".data⟩
    ∧ (padStart4 (natToHexAux i)).length = 4
    ∧ (∀ c ∈ padStart4 (natToHexAux i), hexB c = true)
    ∧ isIPv6Lite (getRandomIPv6 i) = true
    ∧ (∀ hex out, rotatorStep hex = some out → isReservedSeg (rotFirstSeg hex) = false) := by
  have hlen : (natToHexAux i).length ≤ 4 := natToHexAux_len i (by omega)
  have hplen : (padStart4 (natToHexAux i)).length = 4 := padStart4_len _ hlen
  have hphex : ∀ c ∈ padStart4 (natToHexAux i), hexB c = true :=
    padStart4_hexB _ (natToHexAux_hexB i)
  refine ⟨rfl, hplen, hphex, ?_, ?_⟩
  · exact isIPv6Lite_block _ hplen hphex
  · intro hex out h
    unfold rotatorStep at h
    by_cases hres : isReservedSeg (rotFirstSeg hex) = true
    · rw [if_pos hres] at h
      exact absurd h (by simp)
    · simpa using hres

/-- Witness for the amended C3 at the draw 4660 (hex 1234). -/
theorem c3_amended_allocator_witness :
    ((1 : Nat) ≤ 4660 ∧ (4660 : Nat) ≤ 5000)
    ∧ isIPv6Lite (getRandomIPv6 4660) = true
    ∧ getRandomIPv6 4660 = "2607:5300:205:200:1234::1" :=
  ⟨by decide,
    ((c3_amended_allocator 4660 (by decide) (by decide)).right.right.right).left,
    by decide⟩

/-- Witness for C9 at a concrete rejected token. -/
theorem c9_registry_atomic_on_reject_witness :
    (validateBotToken 0 (some "!!!") []).fst = false
    ∧ (validateBotToken 0 (some "!!!") []).snd = [] :=
  ⟨by decide, (c9_registry_atomic_on_reject 0 (some "!!!") []).left (by decide)⟩


end PZG
